import Mathlib

/-!
Shallow embedding of the lxEventServer relay (server.js) and proofs about it.

The relay keeps three pieces of mutable state: the demozone catalog fetched at
startup (demozones, demozonesId), the registry of downstream LX subscriber
connections (lxClients, with the id counter cnxId), and the pool of upstream
event-source connections (ankiClients, one record d per catalog zone).
Handlers are modelled as pure functions from state to state plus observable
output; traces of callbacks are modelled as lists of events folded over the
state.
-/

namespace LxEventServer

/-- Event payloads are opaque to the relay and forwarded verbatim; modelled as
strings (byte-identity is string equality). -/
abbrev Payload := String

/-- JS String.prototype.toUpperCase as used on zone names, mapping
Char.toUpper over the character data (server.js: demozone.toUpperCase()). -/
def jsToUpper (s : String) : String := String.mk (s.data.map Char.toUpper)

/-- Falsiness of an optional JS string: !demozone holds when the query
parameter is absent (undefined) or the empty string. -/
def jsFalsyStr : Option String → Bool
  | none => true
  | some s => s == ""

/-- A demozone record from the catalog fetch (jBody.items entries; the id,
name and proxyport fields are the ones the relay reads; server.js lines
155-169 and 216-223). -/
structure Zone where
  id : String
  name : String
  proxyport : Nat
  deriving DecidableEq

/-- A registered LX subscriber connection, the cnx record of server.js lines
190-196; socket is an abstract transport handle. -/
structure Cnx where
  id : Nat
  demozone : String
  timestampmilis : Nat
  timestamp : String
  socket : Nat
  deriving DecidableEq

/-- The isValid function (server.js lines 275-280). The falsy and
catalog-empty guards return false before demozone.toUpperCase() is reached;
a toUpperCase call on an absent value would throw, modelled as Except.error,
so the dead branch is visible in the embedding. -/
def isValid (demozone : Option String) (demozonesId : Option (List String)) :
    Except String Bool :=
  if jsFalsyStr demozone || demozonesId.isNone || (demozonesId.getD []).length == 0 then
    Except.ok false
  else
    match demozone with
    | none => Except.error "TypeError: demozone is undefined"
    | some s => Except.ok ((demozonesId.getD []).contains (jsToUpper s))

/-- Outcome of one inbound connection attempt: rejected models
socket.disconnect(true); accepted carries the registered cnx; faulted would
model an exception escaping the handler (never produced, see the isValid
theorems). -/
inductive ConnResult where
  | rejected
  | accepted (cnx : Cnx)
  | faulted (msg : String)
  deriving DecidableEq

/-- Mutable server state touched by the subscriber-side handlers: the id
counter cnxId, the registry lxClients, and the loaded demozonesId
(server.js lines 145-149; demozonesId is undefined before the fetch). -/
structure ServerState where
  cnxId : Nat
  lxClients : List Cnx
  demozonesId : Option (List String)
  deriving DecidableEq

/-- The ws.io connection handler (server.js lines 182-209): validate the
demozone query parameter; on failure disconnect the socket and leave all
state untouched; on success allocate ++cnxId, build cnx with the uppercased
zone and push it onto lxClients. -/
def onConnection (st : ServerState) (demozone : Option String)
    (tmillis : Nat) (tstamp : String) (socket : Nat) : ServerState × ConnResult :=
  match isValid demozone st.demozonesId with
  | Except.error e => (st, ConnResult.faulted e)
  | Except.ok false => (st, ConnResult.rejected)
  | Except.ok true =>
    let cnx : Cnx :=
      { id := st.cnxId + 1
        demozone := jsToUpper (demozone.getD "")
        timestampmilis := tmillis
        timestamp := tstamp
        socket := socket }
    ({ st with cnxId := st.cnxId + 1, lxClients := st.lxClients ++ [cnx] },
     ConnResult.accepted cnx)

/-- The lodash remove call of the subscriber disconnect handler (server.js
line 204): drop every registered client carrying the given id, keep the
rest in order. -/
def removeById (lxClients : List Cnx) (i : Nat) : List Cnx :=
  lxClients.filter (fun c => !(c.id == i))

/-- Per-zone upstream connection record d (server.js lines 217-223). -/
structure UpstreamConn where
  demozone : String
  name : String
  port : Nat
  events : Nat
  lastEvent : Option String
  deriving DecidableEq

/-- Construction of the upstream record for a catalog zone (server.js lines
217-223): port is (proxyport % 100) + 10000, counters start at 0 and null. -/
def mkUpstream (z : Zone) : UpstreamConn :=
  { demozone := z.id
    name := z.name
    port := z.proxyport % 100 + 10000
    events := 0
    lastEvent := none }

/-- The lodash filter of the offtrack handler (server.js line 241): the
registered clients whose demozone equals the upstream record demozone. -/
def matchesFor (d : UpstreamConn) (lxClients : List Cnx) : List Cnx :=
  lxClients.filter (fun c => c.demozone == d.demozone)

/-- The offtrack message handler (server.js lines 238-252): filter the
registry for the zone; when at least one client matches, bump d.events, set
d.lastEvent to the formatted current time and emit the message as-is to each
matching client socket; otherwise ignore the event. Returns the updated
record and the list of (socket, payload) emissions. -/
def onEvent (d : UpstreamConn) (lxClients : List Cnx) (msg : Payload) (now : String) :
    UpstreamConn × List (Nat × Payload) :=
  let ms := matchesFor d lxClients
  if ms.length > 0 then
    ({ d with events := d.events + 1, lastEvent := some now },
     ms.map (fun c => (c.socket, msg)))
  else
    (d, [])

/-- The upstream connect callback (server.js lines 227-230): push d onto
ankiClients. -/
def onUpstreamConnect (ankiClients : List UpstreamConn) (d : UpstreamConn) :
    List UpstreamConn :=
  ankiClients ++ [d]

/-- The upstream disconnect callback (server.js lines 231-234): the lodash
remove drops every pool entry whose demozone is the zone id. -/
def onUpstreamDisconnect (ankiClients : List UpstreamConn) (zoneId : String) :
    List UpstreamConn :=
  ankiClients.filter (fun c => !(c.demozone == zoneId))

/-- The per-zone closure state: the record d (with its counters) and whether
d currently sits in the ankiClients pool list. -/
structure ZoneConn where
  d : UpstreamConn
  inPool : Bool
  deriving DecidableEq

/-- Transport callbacks a zone upstream socket delivers (server.js lines
227-252). -/
inductive UpEvent where
  | connect
  | disconnect
  | message (msg : Payload) (now : String)
  deriving DecidableEq

/-- One callback step for a zone upstream socket: connect re-adds d to the
pool, disconnect removes it from the pool leaving the record untouched,
message runs the offtrack handler. -/
def upStep (zc : ZoneConn) (lxClients : List Cnx) :
    UpEvent → ZoneConn × List (Nat × Payload)
  | UpEvent.connect => ({ zc with inPool := true }, [])
  | UpEvent.disconnect => ({ zc with inPool := false }, [])
  | UpEvent.message msg now =>
    let r := onEvent zc.d lxClients msg now
    ({ zc with d := r.1 }, r.2)

/-- The one-shot catalog fetch step (server.js lines 154-170): a transport
error aborts with its message, a missing or empty items array aborts with
the fixed message, otherwise the demozone list is kept. -/
def catalogStep (err : Option String) (items : Option (List Zone)) :
    Except String (List Zone) :=
  match err with
  | some e => Except.error e
  | none =>
    match items with
    | none => Except.error "No demozones found. Aborting."
    | some l =>
      if l.length == 0 then Except.error "No demozones found. Aborting."
      else Except.ok l

/-- Process outcome of startup: aborted carries the exit code, running
carries the immutable catalog state the relay is built from. -/
inductive StartupOutcome where
  | aborted (exitCode : Nat)
  | running (demozones : List Zone) (demozonesId : List String)
  deriving DecidableEq

/-- The async.series pipeline restricted to what depends on the fetch
(server.js lines 153-273): an error from the first step skips the remaining
steps, reaches the final callback and exits the process with code 2 before
the websocket relay and the upstream connections are created; otherwise
demozones and demozonesId are set and startup proceeds. -/
def startup (err : Option String) (items : Option (List Zone)) : StartupOutcome :=
  match catalogStep err items with
  | Except.error _ => StartupOutcome.aborted 2
  | Except.ok l => StartupOutcome.running l (l.map Zone.id)

/-- Subscriber-side transport callbacks delivered after startup. -/
inductive SubEvent where
  | connect (demozone : Option String) (tmillis : Nat) (tstamp : String) (socket : Nat)
  | disconnect (i : Nat)
  deriving DecidableEq

/-- One subscriber-side callback applied to the server state. -/
def step (st : ServerState) : SubEvent → ServerState
  | SubEvent.connect dz tm ts sock => (onConnection st dz tm ts sock).1
  | SubEvent.disconnect i => { st with lxClients := removeById st.lxClients i }

/-- Run a whole trace of subscriber-side callbacks, oldest first. -/
def run (st : ServerState) : List SubEvent → ServerState
  | [] => st
  | e :: evs => run (step st e) evs

/-- The subscriber ids handed out along a trace, in allocation order. -/
def allocIds (st : ServerState) : List SubEvent → List Nat
  | [] => []
  | SubEvent.connect dz tm ts sock :: evs =>
    match onConnection st dz tm ts sock with
    | (st2, ConnResult.accepted cnx) => cnx.id :: allocIds st2 evs
    | (st2, _) => allocIds st2 evs
  | SubEvent.disconnect i :: evs => allocIds (step st (SubEvent.disconnect i)) evs

/-! ### Helper lemmas on case normalization -/

/-- Packing a valid code point and reading it back is the identity. -/
theorem charToNat_ofNat_of_valid (n : Nat) (h : n.isValidChar) :
    (Char.ofNat n).toNat = n := by
  rw [Char.ofNat, dif_pos h]
  simp [Char.ofNatAux, Char.toNat, UInt32.toNat]

/-- Char.toUpper is idempotent: uppercasing lands outside the lowercase
ASCII band, so a second pass is the identity. -/
theorem charToUpper_idem (c : Char) : c.toUpper.toUpper = c.toUpper := by
  unfold Char.toUpper
  by_cases h : c.toNat ≥ 97 ∧ c.toNat ≤ 122
  · rw [if_pos h]
    have hv : (c.toNat - 32).isValidChar := by
      constructor
      omega
    rw [charToNat_ofNat_of_valid (c.toNat - 32) hv] at *
    rw [if_neg]
    omega
  · rw [if_neg h, if_neg h]

/-- jsToUpper is idempotent. -/
theorem jsToUpper_idem (s : String) : jsToUpper (jsToUpper s) = jsToUpper s := by
  unfold jsToUpper
  apply congrArg String.mk
  show (s.data.map Char.toUpper).map Char.toUpper = s.data.map Char.toUpper
  rw [List.map_map]
  exact List.map_congr_left (fun c _ => charToUpper_idem c)

/-! ### Helper lemmas on isValid and onConnection -/

/-- isValid never reaches its throwing branch: it always returns ok, and it
returns ok false whenever the parameter is falsy, the catalog is not yet
loaded, or the catalog is empty. -/
theorem isValid_ok_cases (dz : Option String) (cat : Option (List String)) :
    (∃ b, isValid dz cat = Except.ok b) ∧
      ((jsFalsyStr dz = true ∨ cat = none ∨ cat = some []) →
        isValid dz cat = Except.ok false) := by
  constructor
  · unfold isValid
    by_cases hf : (jsFalsyStr dz || cat.isNone || (cat.getD []).length == 0) = true
    · rw [if_pos hf]
      exact ⟨false, rfl⟩
    · rw [if_neg hf]
      cases dz with
      | none => exact absurd (by simp [jsFalsyStr]) hf
      | some s => exact ⟨(cat.getD []).contains (jsToUpper s), rfl⟩
  · intro h
    unfold isValid
    rw [if_pos]
    rcases h with h | h | h
    · simp [h]
    · simp [h]
    · simp [h]

/-- Characterization of the accepting run of isValid: it answers ok true
exactly when the parameter is a present, non-empty string whose uppercase
form is literally a member of the loaded, non-empty catalog list. -/
theorem isValid_eq_ok_true_iff (dz : Option String) (cat : Option (List String)) :
    isValid dz cat = Except.ok true ↔
      ∃ s l, dz = some s ∧ s ≠ "" ∧ cat = some l ∧ l ≠ [] ∧ jsToUpper s ∈ l := by
  constructor
  · intro h
    unfold isValid at h
    by_cases hf : (jsFalsyStr dz || cat.isNone || (cat.getD []).length == 0) = true
    · rw [if_pos hf] at h
      exact absurd h (by simp)
    · rw [if_neg hf] at h
      simp only [Bool.or_eq_true, not_or] at hf
      obtain ⟨⟨h1, h2⟩, h3⟩ := hf
      cases dz with
      | none => exact absurd rfl h1
      | some s =>
        cases cat with
        | none => exact absurd rfl h2
        | some l =>
          refine ⟨s, l, rfl, ?_, rfl, ?_, ?_⟩
          · simpa [jsFalsyStr] using h1
          · intro hl
            exact h3 (by simp [hl])
          · have := Except.ok.inj h
            simpa using this
  · rintro ⟨s, l, rfl, hs, rfl, hl, hmem⟩
    unfold isValid
    rw [if_neg]
    · simpa using hmem
    · simp [jsFalsyStr, hs, hl]

/-- The connection handler either leaves the whole state untouched (rejected
or faulted) or accepts: the new cnx takes id cnxId + 1, the counter advances
by one and the cnx is appended to the registry. -/
theorem onConnection_cases (st : ServerState) (dz : Option String)
    (tm : Nat) (ts : String) (sock : Nat) :
    onConnection st dz tm ts sock = (st, ConnResult.rejected) ∨
    (∃ e, onConnection st dz tm ts sock = (st, ConnResult.faulted e)) ∨
    (∃ cnx : Cnx, cnx.id = st.cnxId + 1 ∧
      onConnection st dz tm ts sock =
        ({ st with cnxId := st.cnxId + 1, lxClients := st.lxClients ++ [cnx] },
         ConnResult.accepted cnx)) := by
  unfold onConnection
  cases h : isValid dz st.demozonesId with
  | error e =>
    exact Or.inr (Or.inl ⟨e, rfl⟩)
  | ok b =>
    cases b with
    | false => exact Or.inl rfl
    | true => exact Or.inr (Or.inr ⟨_, rfl, rfl⟩)

/-- Every subscriber-side callback leaves the loaded catalog untouched. -/
theorem step_demozonesId (st : ServerState) (e : SubEvent) :
    (step st e).demozonesId = st.demozonesId := by
  cases e with
  | connect dz tm ts sock =>
    rcases onConnection_cases st dz tm ts sock with h | ⟨msg, h⟩ | ⟨cnx, _, h⟩ <;>
      simp [step, h]
  | disconnect i => rfl

/-- Whole traces of subscriber-side callbacks leave the catalog untouched. -/
theorem run_demozonesId (evs : List SubEvent) :
    ∀ st : ServerState, (run st evs).demozonesId = st.demozonesId := by
  induction evs with
  | nil => intro st; rfl
  | cons e evs ih =>
    intro st
    rw [run, ih (step st e), step_demozonesId]

/-- Invariant behind id monotonicity: every id allocated along a trace
exceeds the counter at the start of the trace, and the allocated ids are
pairwise strictly increasing. -/
theorem allocIds_gt_pairwise (evs : List SubEvent) :
    ∀ st : ServerState, (∀ i ∈ allocIds st evs, st.cnxId < i) ∧
      (allocIds st evs).Pairwise (· < ·) := by
  induction evs with
  | nil =>
    intro st
    exact ⟨by simp [allocIds], by simp [allocIds]⟩
  | cons e evs ih =>
    intro st
    cases e with
    | connect dz tm ts sock =>
      rcases onConnection_cases st dz tm ts sock with h | ⟨msg, h⟩ | ⟨cnx, hid, h⟩
      · simpa [allocIds, h] using ih st
      · simpa [allocIds, h] using ih st
      · have ih2 := ih { st with cnxId := st.cnxId + 1, lxClients := st.lxClients ++ [cnx] }
        simp only [allocIds, h]
        constructor
        · intro i hi
          rcases List.mem_cons.mp hi with rfl | hi
          · omega
          · have := ih2.1 i hi
            simp only at this
            omega
        · refine List.pairwise_cons.mpr ⟨?_, ih2.2⟩
          intro i hi
          have := ih2.1 i hi
          simp only at this
          omega
    | disconnect i =>
      have ih2 := ih { st with lxClients := removeById st.lxClients i }
      simpa [allocIds, step] using ih2

/-- The offtrack handler with no matching client leaves the record alone and
emits nothing. -/
theorem onEvent_nil (d : UpstreamConn) (lx : List Cnx) (msg : Payload) (now : String)
    (h : matchesFor d lx = []) : onEvent d lx msg now = (d, []) := by
  simp [onEvent, h]

/-- The offtrack handler with at least one matching client bumps the counter,
stamps the time and emits the unmodified payload to each matching socket. -/
theorem onEvent_pos (d : UpstreamConn) (lx : List Cnx) (msg : Payload) (now : String)
    (h : matchesFor d lx ≠ []) :
    onEvent d lx msg now =
      ({ d with events := d.events + 1, lastEvent := some now },
       (matchesFor d lx).map (fun c => (c.socket, msg))) := by
  simp only [onEvent]
  rw [if_pos (List.length_pos.mpr h)]

/-! ### Claim theorems -/

/-- C1, counterexample: for a zone with zero registered subscribers, an
inbound offtrack event leaves the event counter at 0 (in particular it does
not become events + 1 as the claim states), leaves the last-event timestamp
unset, and emits nothing: the guard in the handler skips the counter update
when the match list is empty. -/
theorem offtrack_zero_subscribers_not_counted :
    (onEvent (mkUpstream ⟨"BARCELONA", "Barcelona", 10101⟩) [] "payload" "now").1.events = 0 ∧
    (onEvent (mkUpstream ⟨"BARCELONA", "Barcelona", 10101⟩) [] "payload" "now").1.events ≠
      (mkUpstream ⟨"BARCELONA", "Barcelona", 10101⟩).events + 1 ∧
    (onEvent (mkUpstream ⟨"BARCELONA", "Barcelona", 10101⟩) [] "payload" "now").1.lastEvent = none ∧
    (onEvent (mkUpstream ⟨"BARCELONA", "Barcelona", 10101⟩) [] "payload" "now").2 = [] := by
  decide

/-- C1, amended: an inbound offtrack event on a zone updates the event
counter and the last-event timestamp only when at least one subscriber is
registered for the zone; with zero matching subscribers the counter, the
timestamp and the registry are all left unchanged and nothing is emitted. -/
theorem offtrack_counts_only_with_subscribers (d : UpstreamConn) (lx : List Cnx)
    (msg : Payload) (now : String) :
    (matchesFor d lx = [] → onEvent d lx msg now = (d, [])) ∧
    (matchesFor d lx ≠ [] →
      (onEvent d lx msg now).1.events = d.events + 1 ∧
      (onEvent d lx msg now).1.lastEvent = some now) := by
  constructor
  · exact onEvent_nil d lx msg now
  · intro h
    rw [onEvent_pos d lx msg now h]
    exact ⟨rfl, rfl⟩

/-- C1 witness: with no subscriber the record is returned untouched; with
one matching subscriber the counter moves to 1. -/
theorem offtrack_counts_only_with_subscribers_witness :
    onEvent (mkUpstream ⟨"MADRID", "Madrid", 10102⟩) [] "p" "t" =
      (mkUpstream ⟨"MADRID", "Madrid", 10102⟩, []) ∧
    (onEvent (mkUpstream ⟨"MADRID", "Madrid", 10102⟩)
        [⟨1, "MADRID", 0, "t", 7⟩] "p" "t").1.events = 1 :=
  ⟨(offtrack_counts_only_with_subscribers _ [] "p" "t").1 rfl,
   by
     have h := ((offtrack_counts_only_with_subscribers
       (mkUpstream ⟨"MADRID", "Madrid", 10102⟩)
       [⟨1, "MADRID", 0, "t", 7⟩] "p" "t").2 (by decide)).1
     simpa using h⟩

/-- C2: with at least one subscriber registered for the zone of the inbound
event, the payload is emitted unmodified to the socket of every registered
client whose demozone equals the zone, and every emission goes to the socket
of such a client, none to a client of a different zone. -/
theorem offtrack_fanout_exact (d : UpstreamConn) (lx : List Cnx) (msg : Payload)
    (now : String) (h : ∃ c ∈ lx, c.demozone = d.demozone) :
    (∀ c ∈ lx, c.demozone = d.demozone → (c.socket, msg) ∈ (onEvent d lx msg now).2) ∧
    (∀ p ∈ (onEvent d lx msg now).2,
      p.2 = msg ∧ ∃ c ∈ lx, c.demozone = d.demozone ∧ p.1 = c.socket) := by
  obtain ⟨c0, hc0, hz0⟩ := h
  have hne : matchesFor d lx ≠ [] := by
    intro hnil
    have hmem : c0 ∈ matchesFor d lx := by
      simp [matchesFor, List.mem_filter, hc0, hz0]
    rw [hnil] at hmem
    exact absurd hmem (List.not_mem_nil c0)
  rw [onEvent_pos d lx msg now hne]
  constructor
  · intro c hc hzeq
    simp only [List.mem_map]
    exact ⟨c, by simp [matchesFor, List.mem_filter, hc, hzeq], rfl⟩
  · intro p hp
    simp only [List.mem_map] at hp
    obtain ⟨c, hcmem, rfl⟩ := hp
    simp only [matchesFor, List.mem_filter, beq_iff_eq] at hcmem
    exact ⟨rfl, c, hcmem.1, hcmem.2, rfl⟩

/-- C2 witness: with one BARCELONA client and one MADRID client registered,
a BARCELONA event reaches the BARCELONA socket carrying the exact payload. -/
theorem offtrack_fanout_exact_witness :
    ((7 : Nat), ("m" : Payload)) ∈
      (onEvent (mkUpstream ⟨"BARCELONA", "Barcelona", 10101⟩)
        [⟨1, "BARCELONA", 0, "t", 7⟩, ⟨2, "MADRID", 0, "t", 8⟩] "m" "now").2 :=
  (offtrack_fanout_exact (mkUpstream ⟨"BARCELONA", "Barcelona", 10101⟩)
      [⟨1, "BARCELONA", 0, "t", 7⟩, ⟨2, "MADRID", 0, "t", 8⟩] "m" "now"
      ⟨⟨1, "BARCELONA", 0, "t", 7⟩, by decide, rfl⟩).1
    ⟨1, "BARCELONA", 0, "t", 7⟩ (by decide) rfl

/-- C4, counterexample: after the upstream transport for BARCELONA connects
and then disconnects, the pool list ankiClients no longer holds the zone
entry at all: the disconnect handler removes it, it does not merely flag it
as disconnected. -/
theorem upstream_disconnect_removes_pool_entry :
    onUpstreamDisconnect
        (onUpstreamConnect [] (mkUpstream ⟨"BARCELONA", "Barcelona", 10101⟩))
        "BARCELONA" = [] ∧
    mkUpstream ⟨"BARCELONA", "Barcelona", 10101⟩ ∉
      onUpstreamDisconnect
        (onUpstreamConnect [] (mkUpstream ⟨"BARCELONA", "Barcelona", 10101⟩))
        "BARCELONA" := by
  decide

/-- C4, amended: on an upstream disconnect the zone entry is removed from
the ankiClients pool list (no pool entry for the zone survives the
callback), while the per-zone connection record itself persists untouched:
its event counter and last-event timestamp are unchanged, and the very same
record is put back into the pool when the transport reconnects. -/
theorem upstream_disconnect_preserves_record (pool : List UpstreamConn)
    (zc : ZoneConn) (lx : List Cnx) :
    (∀ c ∈ onUpstreamDisconnect pool zc.d.demozone, c.demozone ≠ zc.d.demozone) ∧
    upStep zc lx UpEvent.disconnect = ({ zc with inPool := false }, []) ∧
    (upStep (upStep zc lx UpEvent.disconnect).1 lx UpEvent.connect).1 =
      { zc with inPool := true } := by
  refine ⟨?_, rfl, rfl⟩
  intro c hc
  simp only [onUpstreamDisconnect, List.mem_filter, Bool.not_eq_eq_eq_not,
    Bool.not_true, beq_eq_false_iff_ne, ne_eq] at hc
  exact hc.2

/-- C4 witness: the disconnect callback for a concrete zone record flips
only the pool membership and emits nothing. -/
theorem upstream_disconnect_preserves_record_witness :
    upStep ⟨mkUpstream ⟨"BARCELONA", "Barcelona", 10101⟩, true⟩ [] UpEvent.disconnect =
      (⟨mkUpstream ⟨"BARCELONA", "Barcelona", 10101⟩, false⟩, []) :=
  (upstream_disconnect_preserves_record []
    ⟨mkUpstream ⟨"BARCELONA", "Barcelona", 10101⟩, true⟩ []).2.1

/-- C10: for every catalog entry the upstream connection port is
(proxyport % 100) + 10000, hence always between 10000 and 10099 whatever the
configured proxyport is. -/
theorem upstream_port_range (z : Zone) :
    (mkUpstream z).port = z.proxyport % 100 + 10000 ∧
    10000 ≤ (mkUpstream z).port ∧ (mkUpstream z).port ≤ 10099 := by
  have h : z.proxyport % 100 < 100 := Nat.mod_lt _ (by decide)
  refine ⟨rfl, ?_, ?_⟩
  · show 10000 ≤ z.proxyport % 100 + 10000
    omega
  · show z.proxyport % 100 + 10000 ≤ 10099
    omega

/-- C3: a connection attempt whose demozone parameter is missing or empty,
or whose zone is not present in the loaded catalog even up to letter case,
is rejected atomically: the socket is disconnected, no cnx record is
created, and the whole server state (registry and id counter included) is
returned unchanged. -/
theorem connection_unknown_zone_rejected (st : ServerState) (cat : List String)
    (dz : Option String) (tm : Nat) (ts : String) (sock : Nat)
    (hcat : st.demozonesId = some cat)
    (h : jsFalsyStr dz = true ∨ ∀ s, dz = some s → ∀ z ∈ cat, jsToUpper z ≠ jsToUpper s) :
    onConnection st dz tm ts sock = (st, ConnResult.rejected) := by
  have hfalse : isValid dz st.demozonesId = Except.ok false := by
    obtain ⟨⟨b, hb⟩, _⟩ := isValid_ok_cases dz st.demozonesId
    cases b with
    | false => exact hb
    | true =>
      exfalso
      obtain ⟨s, l, hdz, hs, hcat2, hl, hmem⟩ :=
        (isValid_eq_ok_true_iff dz st.demozonesId).mp hb
      rcases h with h | h
      · rw [hdz] at h
        simp only [jsFalsyStr, beq_iff_eq] at h
        exact hs h
      · rw [hcat] at hcat2
        obtain rfl : cat = l := Option.some.inj hcat2
        exact h s hdz (jsToUpper s) hmem (jsToUpper_idem s)
  unfold onConnection
  rw [hfalse]

/-- C3 witness: with catalog BARCELONA loaded, a client asking for tokyo is
rejected and the state is untouched. -/
theorem connection_unknown_zone_rejected_witness :
    onConnection ⟨0, [], some ["BARCELONA"]⟩ (some "tokyo") 0 "t" 1 =
      (⟨0, [], some ["BARCELONA"]⟩, ConnResult.rejected) :=
  connection_unknown_zone_rejected ⟨0, [], some ["BARCELONA"]⟩ ["BARCELONA"]
    (some "tokyo") 0 "t" 1 rfl
    (Or.inr (fun s hs z hz => by
      injection hs with h2
      subst h2
      simp only [List.mem_singleton] at hz
      subst hz
      decide))

/-- C5, counterexample: the claim fails for the degenerate catalog entry "":
the empty string is a casing variant of itself and is a member of the loaded
catalog, yet the connection attempt is rejected by the falsiness guard, not
accepted as the claim states. -/
theorem empty_zone_variant_rejected :
    jsToUpper "" = "" ∧ ("" : String) ∈ [""] ∧
    onConnection ⟨0, [], some [""]⟩ (some "") 0 "t" 1 =
      (⟨0, [], some [""]⟩, ConnResult.rejected) := by
  decide

/-- C5, amended: for every zone Z in the loaded catalog and every non-empty
casing variant s of Z (jsToUpper s = Z), the connection attempt with
parameter s is accepted and the created cnx is registered with demozone
equal to the canonical uppercase form Z. -/
theorem connection_casing_normalized (st : ServerState) (cat : List String)
    (Z s : String) (tm : Nat) (ts : String) (sock : Nat)
    (hcat : st.demozonesId = some cat) (hZ : Z ∈ cat)
    (hs : jsToUpper s = Z) (hne : s ≠ "") :
    onConnection st (some s) tm ts sock =
      ({ st with
          cnxId := st.cnxId + 1
          lxClients := st.lxClients ++ [⟨st.cnxId + 1, Z, tm, ts, sock⟩] },
       ConnResult.accepted ⟨st.cnxId + 1, Z, tm, ts, sock⟩) := by
  have hvalid : isValid (some s) st.demozonesId = Except.ok true := by
    rw [isValid_eq_ok_true_iff]
    exact ⟨s, cat, rfl, hne, hcat, List.ne_nil_of_mem hZ, hs ▸ hZ⟩
  unfold onConnection
  rw [hvalid]
  simp [hs]

/-- C5 witness: with catalog BARCELONA loaded, connecting as barcelona is
accepted and registered under BARCELONA with id 1. -/
theorem connection_casing_normalized_witness :
    onConnection ⟨0, [], some ["BARCELONA"]⟩ (some "barcelona") 5 "t" 2 =
      (⟨1, [⟨1, "BARCELONA", 5, "t", 2⟩], some ["BARCELONA"]⟩,
       ConnResult.accepted ⟨1, "BARCELONA", 5, "t", 2⟩) :=
  connection_casing_normalized ⟨0, [], some ["BARCELONA"]⟩ ["BARCELONA"]
    "BARCELONA" "barcelona" 5 "t" 2 rfl (by decide) (by decide) (by decide)

/-- C6: along every trace of connection and disconnection callbacks, from
any starting state, the subscriber ids handed out are pairwise strictly
increasing in allocation order, hence never reused; disconnections never
free an id. -/
theorem subscriber_ids_strictly_increasing (st : ServerState) (evs : List SubEvent) :
    (allocIds st evs).Pairwise (· < ·) ∧ (allocIds st evs).Nodup :=
  ⟨(allocIds_gt_pairwise evs st).2,
   (allocIds_gt_pairwise evs st).2.imp fun h => Nat.ne_of_lt h⟩

/-- C7: a failed catalog fetch or an absent or empty item list aborts the
process with exit code 2 before any relay state is built; a non-empty list
lets startup proceed with that catalog, and no subscriber-side callback ever
changes the loaded catalog afterwards. -/
theorem startup_catalog_fatal_or_immutable (err : Option String)
    (items : Option (List Zone)) :
    ((err ≠ none ∨ items = none ∨ items = some []) →
      startup err items = StartupOutcome.aborted 2) ∧
    (∀ l, err = none → items = some l → l ≠ [] →
      startup err items = StartupOutcome.running l (l.map Zone.id)) ∧
    (∀ (st : ServerState) (evs : List SubEvent),
      (run st evs).demozonesId = st.demozonesId) := by
  refine ⟨?_, ?_, fun st evs => run_demozonesId evs st⟩
  · intro h
    unfold startup catalogStep
    rcases h with h | h | h
    · cases err with
      | none => exact absurd rfl h
      | some e => rfl
    · subst h
      cases err <;> rfl
    · subst h
      cases err <;> rfl
  · intro l herr hitems hne
    subst herr
    subst hitems
    have hcs : catalogStep none (some l) = Except.ok l := by
      have hlen : (l.length == 0) = false := by simpa using hne
      simp [catalogStep, hlen]
    unfold startup
    rw [hcs]

/-- C7 witness: an empty item list aborts with code 2; a singleton catalog
starts the relay with that zone. -/
theorem startup_catalog_fatal_or_immutable_witness :
    startup none (some []) = StartupOutcome.aborted 2 ∧
    startup none (some [⟨"BARCELONA", "Barcelona", 10101⟩]) =
      StartupOutcome.running [⟨"BARCELONA", "Barcelona", 10101⟩] ["BARCELONA"] :=
  ⟨(startup_catalog_fatal_or_immutable none (some [])).1 (Or.inr (Or.inr rfl)),
   (startup_catalog_fatal_or_immutable none
      (some [⟨"BARCELONA", "Barcelona", 10101⟩])).2.1
     [⟨"BARCELONA", "Barcelona", 10101⟩] rfl rfl (by decide)⟩

/-- C8: removing a subscriber id from the registry is idempotent: a second
removal of the same id changes nothing, and removing an id that no
registered client carries returns the registry exactly as it was. -/
theorem removeById_idempotent_noop (l : List Cnx) (i : Nat) :
    removeById (removeById l i) i = removeById l i ∧
    ((∀ c ∈ l, c.id ≠ i) → removeById l i = l) := by
  constructor
  · unfold removeById
    rw [List.filter_filter]
    simp
  · intro h
    unfold removeById
    rw [List.filter_eq_self.mpr]
    intro c hc
    simpa using h c hc

/-- C8 witness: removing the absent id 2 from a one-client registry returns
it unchanged. -/
theorem removeById_idempotent_noop_witness :
    removeById [⟨1, "BARCELONA", 0, "t", 7⟩] 2 = [⟨1, "BARCELONA", 0, "t", 7⟩] :=
  (removeById_idempotent_noop [⟨1, "BARCELONA", 0, "t", 7⟩] 2).2 (by decide)

/-- C9: zone validation is total and never faults: for every parameter and
every catalog state it returns ok with a boolean, and it returns ok false
(rather than reaching the case conversion, which would throw on an absent
value) whenever the parameter is missing or empty, the catalog is not yet
loaded, or the catalog is empty. -/
theorem isValid_total_no_fault (dz : Option String) (cat : Option (List String)) :
    (∃ b, isValid dz cat = Except.ok b) ∧
    ((jsFalsyStr dz = true ∨ cat = none ∨ cat = some []) →
      isValid dz cat = Except.ok false) :=
  isValid_ok_cases dz cat

/-- C9 witness: an absent parameter with a loaded catalog, and an empty
parameter with an unloaded catalog, both answer ok false. -/
theorem isValid_total_no_fault_witness :
    isValid none (some ["BARCELONA"]) = Except.ok false ∧
    isValid (some "") none = Except.ok false :=
  ⟨(isValid_total_no_fault none (some ["BARCELONA"])).2 (Or.inl rfl),
   (isValid_total_no_fault (some "") none).2 (Or.inr (Or.inl rfl))⟩

end LxEventServer
